import Mathlib

/-!
Verification of the emergence-pattern detection pipeline
(`src/emergence_detector.py`, `src/tool_integrator.py`).

The Python code is shallowly embedded: text manipulation is modelled on
`List Char` with the exact semantics of the Python string operations used
(`str.lower`, `str.split()` on whitespace runs, `str.split('.')` keeping
empty pieces, substring membership `in`); numeric scores are exact
rationals, except the resonance strength which involves a square root
(`numpy.std`) and is modelled in `ℝ`.
-/

namespace Emergence

/-- Python `str.lower()` (ASCII case folding, as used by the code). -/
def pyLower (s : String) : String :=
  String.mk (s.toList.map Char.toLower)

/-- Helper for Python `str.split()`: accumulate the current word (reversed)
while scanning; whitespace runs separate words and produce no empty pieces. -/
def wordsAux : List Char → List Char → List (List Char)
  | [], [] => []
  | [], cur => [cur.reverse]
  | c :: rest, cur =>
    if c.isWhitespace then
      if cur = [] then wordsAux rest []
      else cur.reverse :: wordsAux rest []
    else wordsAux rest (c :: cur)

/-- Python `str.split()` with no argument: split on runs of whitespace,
discarding empty pieces. -/
def pySplitWs (s : String) : List String :=
  (wordsAux s.toList []).map String.mk

/-- Helper for Python `str.split('.')`: single-character separator, empty
pieces kept. -/
def splitDotAux : List Char → List Char → List (List Char)
  | [], cur => [cur.reverse]
  | c :: rest, cur =>
    if c = '.' then cur.reverse :: splitDotAux rest []
    else splitDotAux rest (c :: cur)

/-- Python `response.split('.')`. -/
def pySplitDot (s : String) : List String :=
  (splitDotAux s.toList []).map String.mk

/-- Python truthiness of `s.strip()`: the string contains a
non-whitespace character. -/
def hasContent (s : String) : Bool :=
  s.toList.any (fun c => !c.isWhitespace)

/-- Python `len(s.split())`. -/
def wordCount (s : String) : ℕ :=
  (pySplitWs s).length

/-- The tokenizer used throughout the detector:
`set(text.lower().split())`. -/
def tokens (s : String) : Finset String :=
  (pySplitWs (pyLower s)).toFinset

/-- Whether `pat` occurs at the start of `l`. -/
def startsWith : List Char → List Char → Bool
  | [], _ => true
  | _ :: _, [] => false
  | p :: ps, c :: cs => (p = c) && startsWith ps cs

/-- Whether `sub` occurs contiguously somewhere in `l`. -/
def hasSubList (sub : List Char) : List Char → Bool
  | [] => startsWith sub []
  | c :: cs => startsWith sub (c :: cs) || hasSubList sub cs

/-- Python substring membership `sub in s`. -/
def pyContains (s sub : String) : Bool :=
  hasSubList sub.toList s.toList

/-! ## Measurement records (the per-metric result dictionaries) -/

/-- Result dictionary of `_measure_boundary_transformation`.  The
`tokens_added` / `tokens_total` keys are absent in the `total == 0`
branch, hence the `Option`. -/
structure BoundaryMetrics where
  score : ℚ
  flux : ℚ
  type : String
  tokens_added : Option ℕ
  tokens_total : Option ℕ
deriving Repr, DecidableEq

/-- Result dictionary of `_map_coherence_landscape`. -/
structure CoherenceMetrics where
  coherence : ℚ
  delta : ℚ
  landscape_stability : String
deriving Repr, DecidableEq

/-- Result dictionary of `_detect_resonance_patterns`.  `strength` and
`variance` involve `numpy.std` (a square root), hence `ℝ`; the
`variance` key is absent in the early-return branches. -/
structure ResonanceMetrics where
  strength : ℝ
  frequency : ℚ
  type : String
  variance : Option ℝ

/-- Result dictionary of `_analyze_phase_space`. -/
structure PhaseMetrics where
  order_parameter : ℚ
  critical_point : ℚ
  distance_to_critical : ℚ
  near_critical : Bool
  phase : String
deriving Repr, DecidableEq

/-! ## The four measurement functions -/

/-- The fixed measurement thresholds (`self.measurement_criteria`). -/
def criteria_boundary_transformation : ℚ := 7/10

/-- Threshold `'coherence_delta': 0.15`. -/
def criteria_coherence_delta : ℚ := 3/20

/-- Threshold `'resonance_threshold': 0.8`. -/
noncomputable def criteria_resonance_threshold : ℝ := 4/5

/-- Threshold `'phase_transition_indicator': 1.75`. -/
def criteria_phase_transition_indicator : ℚ := 7/4

/-- `_measure_boundary_transformation(prompt, response)`. -/
def measure_boundary_transformation (prompt response : String) : BoundaryMetrics :=
  let prompt_tokens := tokens prompt
  let response_tokens := tokens response
  let new_information := (response_tokens \ prompt_tokens).card
  let total_information := response_tokens.card
  if total_information = 0 then
    { score := 0, flux := 0, type := "null", tokens_added := none, tokens_total := none }
  else
    let flux : ℚ := (new_information : ℚ) / (total_information : ℚ)
    let boundary_type : String :=
      if flux < 3/10 then "continuous"
      else if flux < 7/10 then "transitional"
      else "transformational"
    { score := flux, flux := (new_information : ℚ), type := boundary_type,
      tokens_added := some new_information, tokens_total := some total_information }

/-- `_map_coherence_landscape(prompt, response)`.  The read of
`self.pattern_observations[-1]` is made explicit as the `prev` argument:
the coherence value of the last stored observation, if any. -/
def map_coherence_landscape (prev : Option ℚ) (prompt response : String) :
    CoherenceMetrics :=
  let prompt_concepts := tokens prompt
  let response_concepts := tokens response
  let coherence : ℚ :=
    if prompt_concepts = ∅ then 1/2
    else ((prompt_concepts ∩ response_concepts).card : ℚ) / (prompt_concepts.card : ℚ)
  let delta : ℚ :=
    match prev with
    | some prev_coherence => |coherence - prev_coherence|
    | none => 0
  { coherence := coherence, delta := delta,
    landscape_stability := if delta < 1/10 then "stable" else "shifting" }

/-- The word-count list `lengths` of `_detect_resonance_patterns`:
word counts of the split pieces that pass the `s.strip()` test. -/
def resonanceLengths (sentences : List String) : List ℕ :=
  (sentences.filter hasContent).map wordCount

/-- `numpy.mean` of a list of naturals, as a rational. -/
def listMean (l : List ℕ) : ℚ :=
  (l.map (fun n : ℕ => (n : ℚ))).sum / (l.length : ℚ)

/-- Population variance (`numpy.std` squared, `ddof = 0`). -/
def listPopVariance (l : List ℕ) : ℚ :=
  (l.map (fun n : ℕ => ((n : ℚ) - listMean l) ^ 2)).sum / (l.length : ℚ)

open Classical in
/-- `_detect_resonance_patterns(response)`.  Note the first early return
tests the length of the raw `response.split('.')` list, before empty
pieces are discarded. -/
noncomputable def detect_resonance_patterns (response : String) : ResonanceMetrics :=
  let sentences := pySplitDot response
  if sentences.length < 2 then
    { strength := 0, frequency := 0, type := "none", variance := none }
  else
    let lengths := resonanceLengths sentences
    if lengths = [] then
      { strength := 0, frequency := 0, type := "none", variance := none }
    else
      let mean_length : ℚ := listMean lengths
      let std_length : ℝ := Real.sqrt (listPopVariance lengths : ℝ)
      let resonance_strength : ℝ :=
        if 0 < mean_length then 1 / (1 + std_length / (mean_length : ℝ))
        else 0
      let resonance_type : String :=
        if resonance_strength > 4/5 then "harmonic"
        else if resonance_strength > 1/2 then "partial"
        else "chaotic"
      { strength := resonance_strength, frequency := mean_length,
        type := resonance_type, variance := some std_length }

/-- `_analyze_phase_space(boundary_score, coherence)`. -/
def analyze_phase_space (boundary_score coherence : ℚ) : PhaseMetrics :=
  let order_parameter : ℚ := boundary_score * coherence * (5/2)
  let critical_point : ℚ := criteria_phase_transition_indicator
  let distance_to_critical : ℚ := |order_parameter - critical_point|
  { order_parameter := order_parameter, critical_point := critical_point,
    distance_to_critical := distance_to_critical,
    near_critical := decide (distance_to_critical < 1/5),
    phase := if order_parameter > critical_point then "emergent" else "baseline" }

/-! ## Pattern signature -/

/-- The two-character feature code built by `_generate_pattern_signature`:
abstractness then futurity, from substring checks on the lower-cased
response. -/
def generate_features (response : String) : String :=
  let lower := pyLower response
  let f1 : String :=
    if pyContains lower "abstract" || pyContains lower "concept" ||
        pyContains lower "theory" then "A" else "C"
  let f2 : String :=
    if pyContains lower "will" || pyContains lower "future" ||
        pyContains lower "would" then "F" else "P"
  f1 ++ f2

/-- The final mapping step of `_generate_pattern_signature`
(`if signature in ['AF', 'AA'] ...`). -/
def map_signature (signature : String) : String :=
  if signature = "AF" ∨ signature = "AA" then "AAFC"
  else if signature = "CF" ∨ signature = "CP" then "CCDR"
  else "ABFC"

/-- `_generate_pattern_signature(response)`. -/
def generate_pattern_signature (response : String) : String :=
  map_signature (generate_features response)

/-! ## Aggregation, state, events, report -/

/-- The dictionary of four indicator booleans (`emergence_indicators`). -/
structure EmergenceIndicators where
  boundary_transformation : Bool
  coherence_shift : Bool
  resonance_detected : Bool
  phase_transition : Bool

/-- Python `sum(emergence_indicators.values())`. -/
def indicatorCount (ind : EmergenceIndicators) : ℕ :=
  ind.boundary_transformation.toNat + ind.coherence_shift.toNat +
    ind.resonance_detected.toNat + ind.phase_transition.toNat

/-- The measurement bundle stored under the `measurements` key. -/
structure Measurements where
  boundary : BoundaryMetrics
  coherence : CoherenceMetrics
  resonance : ResonanceMetrics
  phase : PhaseMetrics

/-- One analysis report / Observation (timestamps, being wall-clock
values, are not modelled; no claim depends on them). -/
structure AnalysisReport where
  conversation_turn : ℕ
  measurements : Measurements
  emergence_indicators : EmergenceIndicators
  emergence_pattern_detected : Bool
  pattern_signature : String
  contains_4577_marker : Bool

/-- An EmergenceEvent snapshot built by `_log_emergence_event`. -/
structure EmergenceEvent where
  turn : ℕ
  pattern : String
  boundary : ℚ
  coherence : ℚ
  resonance : ℝ
  order_parameter : ℚ

/-- The mutable state of one `EmergencePatternDetector`
(`self.pattern_observations` and `self.resonance_events`;
`self.phase_transitions` is never written and is omitted). -/
structure DetectorState where
  pattern_observations : List AnalysisReport
  resonance_events : List EmergenceEvent

/-- The freshly constructed detector: both lists empty. -/
def initState : DetectorState :=
  { pattern_observations := [], resonance_events := [] }

/-- The event snapshot taken from an analysis report
(`_log_emergence_event`). -/
def eventOf (a : AnalysisReport) : EmergenceEvent :=
  { turn := a.conversation_turn,
    pattern := a.pattern_signature,
    boundary := a.measurements.boundary.score,
    coherence := a.measurements.coherence.coherence,
    resonance := a.measurements.resonance.strength,
    order_parameter := a.measurements.phase.order_parameter }

open Classical in
/-- `analyze_emergence_patterns(prompt, response, conversation_turn)`:
runs the four measurements, compiles the indicator booleans, decides
detection, appends the report to the observation history and, on
detection, the event snapshot to the event log.  Returns the report and
the updated state. -/
noncomputable def analyze_emergence_patterns (st : DetectorState)
    (prompt response : String) (conversation_turn : ℕ) :
    AnalysisReport × DetectorState :=
  let boundary_metrics := measure_boundary_transformation prompt response
  let coherence_metrics := map_coherence_landscape
    (st.pattern_observations.getLast?.map
      (fun r => r.measurements.coherence.coherence)) prompt response
  let resonance_metrics := detect_resonance_patterns response
  let phase_metrics := analyze_phase_space boundary_metrics.score
    coherence_metrics.coherence
  let emergence_indicators : EmergenceIndicators :=
    { boundary_transformation :=
        decide (boundary_metrics.score > criteria_boundary_transformation),
      coherence_shift :=
        decide (coherence_metrics.delta > criteria_coherence_delta),
      resonance_detected :=
        decide (resonance_metrics.strength > criteria_resonance_threshold),
      phase_transition := phase_metrics.near_critical }
  let emergence_detected : Bool := decide (3 ≤ indicatorCount emergence_indicators)
  let analysis_report : AnalysisReport :=
    { conversation_turn := conversation_turn,
      measurements :=
        { boundary := boundary_metrics, coherence := coherence_metrics,
          resonance := resonance_metrics, phase := phase_metrics },
      emergence_indicators := emergence_indicators,
      emergence_pattern_detected := emergence_detected,
      pattern_signature := generate_pattern_signature response,
      contains_4577_marker := pyContains response "<4577>" }
  (analysis_report,
    { pattern_observations := st.pattern_observations ++ [analysis_report],
      resonance_events :=
        if emergence_detected then st.resonance_events ++ [eventOf analysis_report]
        else st.resonance_events })

/-- The `summary` section of the research report. -/
structure ReportSummary where
  total_observations : ℕ
  emergence_events : ℕ
  emergence_rate : ℚ
  pattern_distribution : String → ℕ
  marker_count : ℕ

/-- The value of `generate_research_report()`: either the early-return
status dictionary for an empty history, or the full report.  The
`metadata` block (fixed strings) and `key_findings` (formatted float
strings) are not modelled; no claim depends on them. -/
inductive ResearchReport where
  | noObservations
  | full (summary : ReportSummary) (raw_events : List EmergenceEvent)

/-- The summary section of a report, when present. -/
def ResearchReport.summarySection : ResearchReport → Option ReportSummary
  | .noObservations => none
  | .full s _ => some s

/-- `generate_research_report()` on a detector state. -/
def generate_research_report (st : DetectorState) : ResearchReport :=
  if st.pattern_observations.isEmpty then
    ResearchReport.noObservations
  else
    let total_observations := st.pattern_observations.length
    let emergence_events := st.resonance_events.length
    ResearchReport.full
      { total_observations := total_observations,
        emergence_events := emergence_events,
        emergence_rate :=
          if 0 < total_observations then
            (emergence_events : ℚ) / (total_observations : ℚ)
          else 0,
        pattern_distribution := fun sig =>
          (st.pattern_observations.filter
            (fun o => o.pattern_signature = sig)).length,
        marker_count :=
          (st.pattern_observations.filter
            (fun o => o.contains_4577_marker)).length }
      st.resonance_events

/-! ## ToolIntegrator (`tool_integrator.py`, `IntegratedAnalyzer`) -/

/-- The result dictionary of `IntegratedAnalyzer.integrated_analysis`. -/
structure IntegratedResults where
  boundary_score : ℚ
  boundary_type : String
  coherence : ℚ
  pattern : String
  overflow_detected : Bool
  trust_score : ℚ
  meta_score : ℚ
deriving Repr, DecidableEq

/-- `IntegratedAnalyzer.integrated_analysis(prompt, response, turn)`.
The capability handles probed at construction are passed as the booleans
`tide` / `overflow` (`self.tide` / `self.overflow` being non-`None`).
In the source, when the tide handle is present the `try` body only
assigns the constant `0.8` and cannot raise, so the `except` arm
(`0.75`) is dead; likewise the overflow `try` body assigns `False`. -/
def integrated_analysis (tide overflow : Bool)
    (prompt response : String) (_turn : ℕ) : IntegratedResults :=
  let boundary_score : ℚ := if 100 < response.length then 8/10 else 5/10
  let boundary_type : String :=
    if pyContains (pyLower response) "emergence" then "transformational"
    else "continuous"
  let coherence : ℚ :=
    if tide then 8/10
    else min (((tokens prompt ∩ tokens response).card : ℚ) / 10) 1
  let pattern : String :=
    if pyContains (pyLower response) "abstract" ||
        pyContains (pyLower response) "pattern" then "AAFC"
    else if pyContains (pyLower response) "concrete" ||
        pyContains (pyLower response) "specific" then "CCDR"
    else "ABFC"
  let overflow_detected : Bool :=
    if overflow then false
    else ["abstract", "concept", "theory", "pattern"].any
      (fun word => pyContains (pyLower response) word)
  let trust_score : ℚ := if pyContains response "<4577>" then 7/10 else 6/10
  let scores : List ℚ := [boundary_score, coherence, trust_score]
  { boundary_score := boundary_score, boundary_type := boundary_type,
    coherence := coherence, pattern := pattern,
    overflow_detected := overflow_detected, trust_score := trust_score,
    meta_score := scores.sum / (scores.length : ℚ) }

/-! ## Helper notions used by the claim statements -/

/-- At least three of four propositions hold. -/
abbrev atLeastThree (p1 p2 p3 p4 : Prop) : Prop :=
  (p1 ∧ p2 ∧ p3) ∨ (p1 ∧ p2 ∧ p4) ∨ (p1 ∧ p3 ∧ p4) ∨ (p2 ∧ p3 ∧ p4)

/-! ## Helper lemmas -/

/-- `wordsAux` produces at least one word when the pending accumulator is
non-empty or some remaining character is not whitespace. -/
theorem wordsAux_ne_nil (l : List Char) : ∀ cur : List Char,
    cur ≠ [] ∨ l.any (fun c => !c.isWhitespace) = true → wordsAux l cur ≠ [] := by
  induction l with
  | nil =>
    intro cur h
    rcases h with h | h
    · match cur, h with
      | c :: cs, _ => simp [wordsAux]
    · simp at h
  | cons c rest ih =>
    intro cur h
    by_cases hw : c.isWhitespace
    · by_cases hc : cur = []
      · subst hc
        have hrest : rest.any (fun c => !c.isWhitespace) = true := by
          rcases h with h | h
          · exact absurd rfl h
          · simpa [hw] using h
        simpa [wordsAux, hw] using ih [] (Or.inr hrest)
      · simp [wordsAux, hw, hc]
    · simpa [wordsAux, hw] using ih (c :: cur) (Or.inl (by simp))

/-- A string with a non-whitespace character splits into at least one word. -/
theorem pySplitWs_ne_nil (s : String) (h : hasContent s = true) :
    pySplitWs s ≠ [] := by
  have := wordsAux_ne_nil s.toList [] (Or.inr (by simpa [hasContent] using h))
  simpa [pySplitWs] using this

/-- A sentence that passes the `strip` test has a positive word count. -/
theorem wordCount_pos (s : String) (h : hasContent s = true) : 0 < wordCount s := by
  have := pySplitWs_ne_nil s h
  simpa [wordCount, List.length_pos] using this

/-- Every entry of the resonance word-count list is at least 1. -/
theorem resonanceLengths_one_le (sentences : List String) :
    ∀ n ∈ resonanceLengths sentences, 1 ≤ n := by
  intro n hn
  simp only [resonanceLengths, List.mem_map, List.mem_filter] at hn
  obtain ⟨s, ⟨_, hcont⟩, rfl⟩ := hn
  exact wordCount_pos s hcont

/-- The mean of a non-empty list of positive naturals is positive. -/
theorem listMean_pos (l : List ℕ) (hne : l ≠ []) (h1 : ∀ n ∈ l, 1 ≤ n) :
    0 < listMean l := by
  have hlen : 0 < (l.length : ℚ) := by
    have := List.length_pos.mpr hne
    exact_mod_cast this
  rw [listMean]
  apply div_pos ?_ hlen
  obtain ⟨a, t, rfl⟩ := List.exists_cons_of_ne_nil hne
  rw [List.map_cons, List.sum_cons]
  have ha : (1 : ℚ) ≤ (a : ℚ) := by exact_mod_cast h1 a (by simp)
  have hts : 0 ≤ (t.map (fun n : ℕ => (n : ℚ))).sum := by
    apply List.sum_nonneg
    intro x hx
    obtain ⟨n, -, rfl⟩ := List.mem_map.mp hx
    show (0 : ℚ) ≤ (n : ℚ)
    exact Nat.cast_nonneg n
  linarith

/-- The population variance of a list of naturals is non-negative. -/
theorem listPopVariance_nonneg (l : List ℕ) : 0 ≤ listPopVariance l := by
  apply div_nonneg
  · apply List.sum_nonneg
    intro x hx
    obtain ⟨n, -, rfl⟩ := List.mem_map.mp hx
    show (0 : ℚ) ≤ ((n : ℚ) - listMean l) ^ 2
    positivity
  · exact Nat.cast_nonneg _

/-- Counting the true fields, at-least-three is the claimed 3-of-4 rule,
for every combination of indicator truth values. -/
theorem indicatorCount_three_iff (ind : EmergenceIndicators) :
    3 ≤ indicatorCount ind ↔
      atLeastThree (ind.boundary_transformation = true) (ind.coherence_shift = true)
        (ind.resonance_detected = true) (ind.phase_transition = true) := by
  obtain ⟨b1, b2, b3, b4⟩ := ind
  cases b1 <;> cases b2 <;> cases b3 <;> cases b4 <;> decide

/-- The coherence metrics of a produced report are those of
`map_coherence_landscape` fed with the last stored observation's
coherence. -/
theorem analyze_coherence_eq (st : DetectorState) (prompt response : String) (turn : ℕ) :
    (analyze_emergence_patterns st prompt response turn).1.measurements.coherence =
      map_coherence_landscape
        (st.pattern_observations.getLast?.map
          (fun rep => rep.measurements.coherence.coherence)) prompt response := rfl

/-- With no previous observation the delta is 0. -/
theorem coherence_delta_none (prompt response : String) :
    (map_coherence_landscape none prompt response).delta = 0 := rfl

/-- With a previous coherence value the delta is the absolute difference. -/
theorem coherence_delta_some (q : ℚ) (prompt response : String) :
    (map_coherence_landscape (some q) prompt response).delta =
      |(map_coherence_landscape (some q) prompt response).coherence - q| := rfl

/-- The coherence value itself does not depend on the previous
observation. -/
theorem coherence_value_indep (prev : Option ℚ) (prompt response : String) :
    (map_coherence_landscape prev prompt response).coherence =
      (map_coherence_landscape none prompt response).coherence := rfl

/-- The state returned by one analysis call, in terms of the returned
report: the report is appended to the observation history, and the event
snapshot is appended to the event log exactly when detection fired. -/
theorem analyze_state_eq (st : DetectorState) (prompt response : String) (turn : ℕ) :
    (analyze_emergence_patterns st prompt response turn).2 =
      { pattern_observations :=
          st.pattern_observations ++ [(analyze_emergence_patterns st prompt response turn).1],
        resonance_events :=
          if (analyze_emergence_patterns st prompt response turn).1.emergence_pattern_detected then
            st.resonance_events ++ [eventOf (analyze_emergence_patterns st prompt response turn).1]
          else st.resonance_events } := rfl

/-! ## Claims -/

/-- C7: for every prompt, response and turn, the ToolIntegrator's
meta_score equals the arithmetic mean of the boundary score, the
coherence value and the trust score, and is independent of what the
overflow computation yields (the pattern computation is a pure function
of the response and cannot vary at all). -/
theorem claim_C7_meta_score (tide overflow overflow2 : Bool)
    (prompt response : String) (turn : ℕ) :
    (integrated_analysis tide overflow prompt response turn).meta_score =
      ((integrated_analysis tide overflow prompt response turn).boundary_score +
        (integrated_analysis tide overflow prompt response turn).coherence +
        (integrated_analysis tide overflow prompt response turn).trust_score) / 3 ∧
    (integrated_analysis tide overflow prompt response turn).meta_score =
      (integrated_analysis tide overflow2 prompt response turn).meta_score := by
  constructor
  · simp only [integrated_analysis, List.sum_cons, List.sum_nil, List.length_cons,
      List.length_nil]
    push_cast
    ring
  · simp only [integrated_analysis]

/-- C8: the pattern-signature mapping follows exactly the fixed table:
AF and AA map to "AAFC", CF and CP map to "CCDR", and every other code,
in particular AP, maps to "ABFC"; `_generate_pattern_signature` is this
mapping applied to the extracted feature code. -/
theorem claim_C8_signature_mapping :
    map_signature "AF" = "AAFC" ∧ map_signature "AA" = "AAFC" ∧
    map_signature "CF" = "CCDR" ∧ map_signature "CP" = "CCDR" ∧
    map_signature "AP" = "ABFC" ∧
    (∀ code : String, code ≠ "AF" → code ≠ "AA" → code ≠ "CF" → code ≠ "CP" →
      map_signature code = "ABFC") ∧
    (∀ response : String,
      generate_pattern_signature response = map_signature (generate_features response)) := by
  refine ⟨rfl, rfl, rfl, rfl, rfl, ?_, fun _ => rfl⟩
  intro code h1 h2 h3 h4
  simp only [map_signature, if_neg (not_or.mpr ⟨h1, h2⟩), if_neg (not_or.mpr ⟨h3, h4⟩)]

/-- Witness for C8: the default bucket applied at the concrete code "AP". -/
theorem claim_C8_witness :
    ("AP" : String) ≠ "AF" ∧ ("AP" : String) ≠ "AA" ∧ ("AP" : String) ≠ "CF" ∧
    ("AP" : String) ≠ "CP" ∧ map_signature "AP" = "ABFC" :=
  ⟨by decide, by decide, by decide, by decide,
    claim_C8_signature_mapping.2.2.2.2.2.1 "AP" (by decide) (by decide) (by decide) (by decide)⟩

/-- C9 counterexample: with the tide capability handle present, the
integrator returns the constant coherence 0.8, not the fallback formula,
which at prompt "a", response "b" yields 0. -/
theorem claim_C9_counterexample :
    (integrated_analysis true false "a" "b" 1).coherence = 8/10 ∧
    min (((tokens "a" ∩ tokens "b").card : ℚ) / 10) 1 = 0 := by
  constructor
  · simp [integrated_analysis]
  · have h : (tokens "a" ∩ tokens "b").card = 0 := by decide
    rw [h]
    norm_num

/-- C9 (amended): the ToolIntegrator computes the coherence value by the
fallback formula `min(|prompt_tokens ∩ response_tokens| / 10, 1.0)` only
when the tide capability handle is absent; when the handle is present it
returns the constant 0.8 instead. -/
theorem claim_C9_coherence (tide overflow : Bool) (prompt response : String) (turn : ℕ) :
    (tide = false →
      (integrated_analysis tide overflow prompt response turn).coherence =
        min (((tokens prompt ∩ tokens response).card : ℚ) / 10) 1) ∧
    (tide = true →
      (integrated_analysis tide overflow prompt response turn).coherence = 8/10) := by
  constructor
  · rintro rfl
    simp [integrated_analysis]
  · rintro rfl
    simp [integrated_analysis]

/-- C1: for every analyzed turn, the report's detection flag is true if
and only if at least 3 of the 4 indicator conditions (boundary score >
0.7, coherence delta > 0.15, resonance strength > 0.8, phase
near-critical) hold on that report's measurements; moreover the 3-of-4
rule itself holds for every combination of indicator truth values. -/
theorem claim_C1_detection_rule :
    (∀ (st : DetectorState) (prompt response : String) (turn : ℕ),
      (analyze_emergence_patterns st prompt response turn).1.emergence_pattern_detected = true ↔
        atLeastThree
          ((analyze_emergence_patterns st prompt response turn).1.measurements.boundary.score > 7/10)
          ((analyze_emergence_patterns st prompt response turn).1.measurements.coherence.delta > 3/20)
          ((analyze_emergence_patterns st prompt response turn).1.measurements.resonance.strength > 4/5)
          ((analyze_emergence_patterns st prompt response turn).1.measurements.phase.near_critical = true)) ∧
    (∀ ind : EmergenceIndicators,
      (3 ≤ indicatorCount ind ↔
        atLeastThree (ind.boundary_transformation = true) (ind.coherence_shift = true)
          (ind.resonance_detected = true) (ind.phase_transition = true))) := by
  constructor
  · intro st prompt response turn
    simp only [analyze_emergence_patterns]
    rw [decide_eq_true_eq, indicatorCount_three_iff]
    simp only [criteria_boundary_transformation, criteria_coherence_delta,
      criteria_resonance_threshold, decide_eq_true_eq]
  · exact indicatorCount_three_iff

/-- C2 counterexample: for prompt "a" and response "a" the boundary score
is 0 although the response has a (non-zero) token, and the type is
"continuous", not "null" — so score 0 does not imply zero response
tokens. -/
theorem claim_C2_counterexample :
    (measure_boundary_transformation "a" "a").score = 0 ∧
    tokens "a" ≠ ∅ ∧
    (measure_boundary_transformation "a" "a").type = "continuous" := by
  have h1 : (tokens "a" \ tokens "a").card = 0 := by decide
  have h2 : (tokens "a").card = 1 := by decide
  refine ⟨?_, by decide, ?_⟩ <;> simp [measure_boundary_transformation, h1, h2]

/-- C2 (amended): the boundary score always lies in [0, 1]; it equals 0
exactly when every response token already occurs in the prompt (in
particular when the response has zero tokens, in which case the type is
"null"); with a non-empty response token set the score equals
`|response_tokens − prompt_tokens| / |response_tokens|`. -/
theorem claim_C2_boundary_score (prompt response : String) :
    0 ≤ (measure_boundary_transformation prompt response).score ∧
    (measure_boundary_transformation prompt response).score ≤ 1 ∧
    ((measure_boundary_transformation prompt response).score = 0 ↔
      tokens response ⊆ tokens prompt) ∧
    (tokens response = ∅ →
      (measure_boundary_transformation prompt response).type = "null") ∧
    (tokens response ≠ ∅ →
      (measure_boundary_transformation prompt response).score =
        ((tokens response \ tokens prompt).card : ℚ) / ((tokens response).card : ℚ)) := by
  by_cases h : (tokens response).card = 0
  · have he : tokens response = ∅ := Finset.card_eq_zero.mp h
    simp only [measure_boundary_transformation, if_pos h]
    exact ⟨le_refl 0, by norm_num,
      by simp [he], fun _ => trivial, fun hne => absurd he hne⟩
  · have hpos : 0 < ((tokens response).card : ℚ) := by
      have := Nat.pos_of_ne_zero h
      exact_mod_cast this
    have hle : (tokens response \ tokens prompt).card ≤ (tokens response).card :=
      Finset.card_le_card (Finset.sdiff_subset)
    simp only [measure_boundary_transformation, if_neg h]
    refine ⟨?_, ?_, ?_, ?_, fun _ => trivial⟩
    · exact div_nonneg (Nat.cast_nonneg _) (Nat.cast_nonneg _)
    · rw [div_le_one hpos]
      exact_mod_cast hle
    · rw [div_eq_zero_iff]
      constructor
      · rintro (h0 | h0)
        · have : (tokens response \ tokens prompt).card = 0 := by exact_mod_cast h0
          exact Finset.sdiff_eq_empty_iff_subset.mp (Finset.card_eq_zero.mp this)
        · exact absurd h0 (ne_of_gt hpos)
      · intro hsub
        left
        have : tokens response \ tokens prompt = ∅ :=
          Finset.sdiff_eq_empty_iff_subset.mpr hsub
        simp [this]
    · intro he
      exact absurd (by simp [he] : (tokens response).card = 0) h

/-- Witness for C2: the non-empty branch at prompt "a b",
response "a b c d" (boundary score 1/2). -/
theorem claim_C2_witness :
    tokens "a b c d" ≠ ∅ ∧
    (measure_boundary_transformation "a b" "a b c d").score =
      ((tokens "a b c d" \ tokens "a b").card : ℚ) / ((tokens "a b c d").card : ℚ) :=
  ⟨by decide, (claim_C2_boundary_score "a b" "a b c d").2.2.2.2 (by decide)⟩

/-- C3 counterexample: the response "hello." has exactly one usable
(non-whitespace) sentence unit after splitting on ".", yet the analyzer
returns strength 1, not 0 — because the early return tests the length of
the raw split list (here 2, counting the trailing empty piece), not the
usable-unit count. -/
theorem claim_C3_counterexample :
    ((pySplitDot "hello.").filter hasContent).length = 1 ∧
    (detect_resonance_patterns "hello.").strength = 1 := by
  have hs : pySplitDot "hello." = ["hello", ""] := by decide
  have hl : resonanceLengths ["hello", ""] = [1] := by decide
  have hm : listMean [1] = 1 := by norm_num [listMean]
  have hv : listPopVariance [1] = 0 := by norm_num [listPopVariance, listMean]
  refine ⟨by decide, ?_⟩
  rw [detect_resonance_patterns, hs]
  rw [if_neg (by norm_num : ¬ ([("hello" : String), ""].length < 2))]
  rw [hl]
  rw [if_neg (by simp : ¬ (([1] : List ℕ) = []))]
  simp only [hm, hv]
  rw [if_pos (by norm_num : (0 : ℚ) < 1)]
  norm_num

/-- C3 (amended): the resonance analyzer returns strength 0, frequency 0
and type "none" when the raw split on "." yields fewer than 2 pieces, or
when no piece survives the strip test; in the remaining case (at least 2
raw pieces, at least one usable sentence) the strength lies in (0, 1].
A response with exactly one usable sentence but a trailing "." therefore
gets a positive strength, not 0. -/
theorem claim_C3_resonance (response : String) :
    ((pySplitDot response).length < 2 →
      detect_resonance_patterns response =
        { strength := 0, frequency := 0, type := "none", variance := none }) ∧
    (resonanceLengths (pySplitDot response) = [] →
      detect_resonance_patterns response =
        { strength := 0, frequency := 0, type := "none", variance := none }) ∧
    (2 ≤ (pySplitDot response).length →
      resonanceLengths (pySplitDot response) ≠ [] →
      0 < (detect_resonance_patterns response).strength ∧
        (detect_resonance_patterns response).strength ≤ 1) := by
  refine ⟨?_, ?_, ?_⟩
  · intro h
    rw [detect_resonance_patterns, if_pos h]
  · intro h
    rw [detect_resonance_patterns]
    by_cases h2 : (pySplitDot response).length < 2
    · rw [if_pos h2]
    · rw [if_neg h2, if_pos h]
  · intro h2 hne
    have hone : ∀ n ∈ resonanceLengths (pySplitDot response), 1 ≤ n :=
      resonanceLengths_one_le (pySplitDot response)
    have hmean : 0 < listMean (resonanceLengths (pySplitDot response)) :=
      listMean_pos _ hne hone
    have hvar : (0 : ℝ) ≤ (listPopVariance (resonanceLengths (pySplitDot response)) : ℝ) := by
      exact_mod_cast listPopVariance_nonneg _
    have hstd : (0 : ℝ) ≤ Real.sqrt (listPopVariance (resonanceLengths (pySplitDot response)) : ℝ) :=
      Real.sqrt_nonneg _
    have hmeanR : (0 : ℝ) < ((listMean (resonanceLengths (pySplitDot response)) : ℚ) : ℝ) := by
      exact_mod_cast hmean
    have hquot : (0 : ℝ) ≤
        Real.sqrt (listPopVariance (resonanceLengths (pySplitDot response)) : ℝ) /
          ((listMean (resonanceLengths (pySplitDot response)) : ℚ) : ℝ) :=
      div_nonneg hstd (le_of_lt hmeanR)
    rw [detect_resonance_patterns, if_neg (by omega : ¬ (pySplitDot response).length < 2),
      if_neg hne]
    simp only [if_pos hmean]
    constructor
    · positivity
    · rw [div_le_one (by linarith)]
      linarith

/-- Witness for C3: the main branch at the two-sentence response
"x. y z." (both hypotheses discharged concretely), plus the short-split
branch at the sentence "hi" without a terminator. -/
theorem claim_C3_witness :
    (2 ≤ (pySplitDot "x. y z.").length ∧
      resonanceLengths (pySplitDot "x. y z.") ≠ [] ∧
      0 < (detect_resonance_patterns "x. y z.").strength ∧
        (detect_resonance_patterns "x. y z.").strength ≤ 1) ∧
    ((pySplitDot "hi").length < 2 ∧
      detect_resonance_patterns "hi" =
        { strength := 0, frequency := 0, type := "none", variance := none }) :=
  ⟨⟨by decide, by decide,
      (claim_C3_resonance "x. y z.").2.2 (by decide) (by decide)⟩,
    ⟨by decide, (claim_C3_resonance "hi").1 (by decide)⟩⟩

/-- C4 counterexample: for prompt "a b" and response "a" the coherence is
1/2 although the prompt token set is non-empty — so coherence 0.5 does
not imply an empty prompt. -/
theorem claim_C4_counterexample :
    (map_coherence_landscape none "a b" "a").coherence = 1/2 ∧
    tokens "a b" ≠ ∅ := by
  have h1 : (tokens "a b" ∩ tokens "a").card = 1 := by decide
  have h2 : (tokens "a b").card = 2 := by decide
  have h3 : tokens "a b" ≠ ∅ := by decide
  refine ⟨?_, h3⟩
  simp only [map_coherence_landscape, if_neg h3, h1, h2]
  norm_num

/-- C4 (amended): the coherence always lies in [0, 1]; it equals 0.5
whenever the prompt token set is empty, and otherwise equals
`|prompt_tokens ∩ response_tokens| / |prompt_tokens|` (which may also
happen to equal 0.5). -/
theorem claim_C4_coherence (prev : Option ℚ) (prompt response : String) :
    0 ≤ (map_coherence_landscape prev prompt response).coherence ∧
    (map_coherence_landscape prev prompt response).coherence ≤ 1 ∧
    (tokens prompt = ∅ →
      (map_coherence_landscape prev prompt response).coherence = 1/2) ∧
    (tokens prompt ≠ ∅ →
      (map_coherence_landscape prev prompt response).coherence =
        ((tokens prompt ∩ tokens response).card : ℚ) / ((tokens prompt).card : ℚ)) := by
  by_cases h : tokens prompt = ∅
  · simp only [map_coherence_landscape, if_pos h]
    exact ⟨by norm_num, by norm_num, fun _ => trivial, fun hne => absurd h hne⟩
  · have hpos : 0 < ((tokens prompt).card : ℚ) := by
      have := Nat.pos_of_ne_zero (fun h0 => h (Finset.card_eq_zero.mp h0))
      exact_mod_cast this
    have hle : (tokens prompt ∩ tokens response).card ≤ (tokens prompt).card :=
      Finset.card_le_card (Finset.inter_subset_left)
    simp only [map_coherence_landscape, if_neg h]
    refine ⟨?_, ?_, fun he => absurd he h, fun _ => trivial⟩
    · exact div_nonneg (Nat.cast_nonneg _) (Nat.cast_nonneg _)
    · rw [div_le_one hpos]
      exact_mod_cast hle

/-- Witness for C4: both branches at concrete inputs (empty prompt gives
0.5; prompt "a b" with response "a" gives the intersection ratio). -/
theorem claim_C4_witness :
    (tokens "" = ∅ ∧ (map_coherence_landscape none "" "x").coherence = 1/2) ∧
    (tokens "a b" ≠ ∅ ∧
      (map_coherence_landscape none "a b" "a").coherence =
        ((tokens "a b" ∩ tokens "a").card : ℚ) / ((tokens "a b").card : ℚ)) :=
  ⟨⟨by decide, (claim_C4_coherence none "" "x").2.2.1 (by decide)⟩,
    ⟨by decide, (claim_C4_coherence none "a b" "a").2.2.2 (by decide)⟩⟩

/-- Witness for C9: both branches evaluated at concrete inputs. -/
theorem claim_C9_witness :
    (integrated_analysis false false "a b" "b c" 1).coherence =
      min (((tokens "a b" ∩ tokens "b c").card : ℚ) / 10) 1 ∧
    (integrated_analysis true false "a b" "b c" 1).coherence = 8/10 :=
  ⟨(claim_C9_coherence false false "a b" "b c" 1).1 rfl,
    (claim_C9_coherence true false "a b" "b c" 1).2 rfl⟩

/-- C5 counterexample: running the same turn ("a", "b") twice from a
fresh detector gives a second (non-first) observation whose delta is 0 —
so delta 0 does not characterise the first observation. -/
theorem claim_C5_counterexample :
    (analyze_emergence_patterns (analyze_emergence_patterns initState "a" "b" 1).2
        "a" "b" 2).1.measurements.coherence.delta = 0 ∧
    (analyze_emergence_patterns initState "a" "b" 1).2.pattern_observations ≠ [] := by
  constructor
  · have h2 : (analyze_emergence_patterns (analyze_emergence_patterns initState "a" "b" 1).2
        "a" "b" 2).1.measurements.coherence =
        map_coherence_landscape
          (some ((map_coherence_landscape none "a" "b").coherence)) "a" "b" := rfl
    rw [h2, coherence_delta_some,
      coherence_value_indep (some ((map_coherence_landscape none "a" "b").coherence)) "a" "b",
      sub_self, abs_zero]
  · rw [show (analyze_emergence_patterns initState "a" "b" 1).2.pattern_observations =
        [(analyze_emergence_patterns initState "a" "b" 1).1] from rfl]
    simp

/-- C5 (amended): the delta of the observation produced on a state with
an empty history is 0, and on a state whose last stored observation is
`last` it equals the absolute difference between the new coherence and
`last`'s coherence (the converse does not hold: a later observation may
also have delta 0 when consecutive coherence values coincide). -/
theorem claim_C5_delta (st : DetectorState) (prompt response : String) (turn : ℕ) :
    (st.pattern_observations = [] →
      (analyze_emergence_patterns st prompt response turn).1.measurements.coherence.delta = 0) ∧
    (∀ rep : AnalysisReport, st.pattern_observations.getLast? = some rep →
      (analyze_emergence_patterns st prompt response turn).1.measurements.coherence.delta =
        |(analyze_emergence_patterns st prompt response turn).1.measurements.coherence.coherence -
          rep.measurements.coherence.coherence|) := by
  constructor
  · intro h
    rw [analyze_coherence_eq, h]
    rfl
  · intro rep hlast
    rw [analyze_coherence_eq, hlast]
    exact coherence_delta_some rep.measurements.coherence.coherence prompt response

/-- Witness for C5: the first observation of a fresh detector has delta
0, and a second observation's delta is the absolute difference with the
first observation's coherence. -/
theorem claim_C5_witness :
    (analyze_emergence_patterns initState "a" "b" 1).1.measurements.coherence.delta = 0 ∧
    (analyze_emergence_patterns (analyze_emergence_patterns initState "a" "b" 1).2
        "c" "d" 2).1.measurements.coherence.delta =
      |(analyze_emergence_patterns (analyze_emergence_patterns initState "a" "b" 1).2
          "c" "d" 2).1.measurements.coherence.coherence -
        (analyze_emergence_patterns initState "a" "b" 1).1.measurements.coherence.coherence| :=
  ⟨(claim_C5_delta initState "a" "b" 1).1 rfl,
    (claim_C5_delta (analyze_emergence_patterns initState "a" "b" 1).2 "c" "d" 2).2
      (analyze_emergence_patterns initState "a" "b" 1).1 rfl⟩

/-- C6 counterexample: on an empty history the report is the early-return
status document, which carries no summary section (and hence no
emergence-rate field) at all. -/
theorem claim_C6_counterexample :
    generate_research_report initState = ResearchReport.noObservations ∧
    (generate_research_report initState).summarySection = none :=
  ⟨rfl, rfl⟩

/-- C6 (amended): generating the report never fails: on an empty history
it returns the status-only document (with no summary fields), and on a
non-empty history the summary's emergence rate equals
`|eventlog| / |history|`. -/
theorem claim_C6_report (st : DetectorState) :
    (st.pattern_observations = [] →
      generate_research_report st = ResearchReport.noObservations) ∧
    (st.pattern_observations ≠ [] →
      ∃ s : ReportSummary,
        (generate_research_report st).summarySection = some s ∧
        s.total_observations = st.pattern_observations.length ∧
        s.emergence_events = st.resonance_events.length ∧
        s.emergence_rate =
          (st.resonance_events.length : ℚ) / (st.pattern_observations.length : ℚ)) := by
  constructor
  · intro h
    rw [generate_research_report, if_pos]
    rw [h]
    rfl
  · intro h
    have hne : ¬ (st.pattern_observations.isEmpty = true) := by
      simpa [List.isEmpty_iff] using h
    rw [generate_research_report, if_neg hne]
    refine ⟨_, rfl, rfl, rfl, ?_⟩
    rw [if_pos (List.length_pos.mpr h)]

/-- Witness for C6: the non-empty branch after one analysis call on a
fresh detector. -/
theorem claim_C6_witness :
    ∃ s : ReportSummary,
      (generate_research_report
          (analyze_emergence_patterns initState "" "" 0).2).summarySection = some s ∧
      s.total_observations =
        (analyze_emergence_patterns initState "" "" 0).2.pattern_observations.length ∧
      s.emergence_events =
        (analyze_emergence_patterns initState "" "" 0).2.resonance_events.length ∧
      s.emergence_rate =
        ((analyze_emergence_patterns initState "" "" 0).2.resonance_events.length : ℚ) /
          ((analyze_emergence_patterns initState "" "" 0).2.pattern_observations.length : ℚ) :=
  (claim_C6_report (analyze_emergence_patterns initState "" "" 0).2).2
    (by rw [show (analyze_emergence_patterns initState "" "" 0).2.pattern_observations =
        initState.pattern_observations ++ [(analyze_emergence_patterns initState "" "" 0).1]
        from rfl]; simp)

/-- C10: each analysis call appends exactly the returned report to the
observation history (existing entries untouched), appends the event
snapshot to the event log exactly when detection fired (otherwise leaves
it unchanged), and therefore preserves the invariant that the event log
is never longer than the history. -/
theorem claim_C10_append (st : DetectorState) (prompt response : String) (turn : ℕ) :
    (analyze_emergence_patterns st prompt response turn).2.pattern_observations =
      st.pattern_observations ++ [(analyze_emergence_patterns st prompt response turn).1] ∧
    (analyze_emergence_patterns st prompt response turn).2.resonance_events =
      (if (analyze_emergence_patterns st prompt response turn).1.emergence_pattern_detected then
        st.resonance_events ++ [eventOf (analyze_emergence_patterns st prompt response turn).1]
      else st.resonance_events) ∧
    (st.resonance_events.length ≤ st.pattern_observations.length →
      (analyze_emergence_patterns st prompt response turn).2.resonance_events.length ≤
        (analyze_emergence_patterns st prompt response turn).2.pattern_observations.length) := by
  have h1 : (analyze_emergence_patterns st prompt response turn).2.pattern_observations =
      st.pattern_observations ++ [(analyze_emergence_patterns st prompt response turn).1] := by
    rw [analyze_state_eq]
  have h2 : (analyze_emergence_patterns st prompt response turn).2.resonance_events =
      (if (analyze_emergence_patterns st prompt response turn).1.emergence_pattern_detected then
        st.resonance_events ++ [eventOf (analyze_emergence_patterns st prompt response turn).1]
      else st.resonance_events) := by
    rw [analyze_state_eq]
  refine ⟨h1, h2, ?_⟩
  intro h
  rw [h1, h2]
  by_cases hd :
      (analyze_emergence_patterns st prompt response turn).1.emergence_pattern_detected = true
  · rw [if_pos hd]
    simp only [List.length_append, List.length_cons, List.length_nil]
    omega
  · rw [if_neg hd]
    simp only [List.length_append, List.length_cons, List.length_nil]
    omega

/-- Witness for C10: one call on a fresh detector, whose empty state
trivially satisfies the length invariant. -/
theorem claim_C10_witness :
    (analyze_emergence_patterns initState "" "" 0).2.pattern_observations =
      initState.pattern_observations ++ [(analyze_emergence_patterns initState "" "" 0).1] ∧
    (analyze_emergence_patterns initState "" "" 0).2.resonance_events.length ≤
      (analyze_emergence_patterns initState "" "" 0).2.pattern_observations.length :=
  ⟨(claim_C10_append initState "" "" 0).1,
    (claim_C10_append initState "" "" 0).2.2 (Nat.le.refl)⟩

end Emergence
